import Mathlib

/-!
Verification of the weighted sentiment aggregation engine of the
`sentimentwebsite` repository (src/processing/sentiment.py and
src/processing/dashboard.py) against its natural-language specification.

Modelling conventions:
* Python floats are embedded as exact rationals (`ℚ`); the real-valued
  power `base ** 1.5` forces the impact weight into `ℝ`.
* Timestamp strings are abstracted as parsed UTC epoch seconds (`ℚ`);
  `none` stands for a missing or unparsable timestamp string, exactly the
  two cases in which `_recency_weight` returns 0.0 before any arithmetic.
* The external classifier `analyze_batch` (models/finbert_gold.py, an
  external collaborator) is a parameter `batch : List String → List
  SentimentScores` of the pipeline.
-/

/-- Sentiment probabilities returned by the external classifier
(`SentimentScores` dataclass of models/finbert_gold.py; the spec's data
model gives the three fields as floats in [0,1]). -/
structure SentimentScores where
  positive : ℚ
  negative : ℚ
  neutral : ℚ
deriving DecidableEq

/-- One raw news record of the input snapshot, with the fields that
`analyze_documents` reads. `article.get("title") or ""` collapses a missing
field and an empty string, so the three text fields are plain strings with
`""` for absent. -/
structure RawArticle where
  url : String
  timestamp : Option ℚ
  title : String
  description : String
  content : String
deriving DecidableEq

/-- Embedding of `_extract_news_text` (sentiment.py lines 77-83): join the
non-empty parts of title/description/content with the separator `" \n"`. -/
def extract_news_text (a : RawArticle) : String :=
  String.intercalate " \n" ([a.title, a.description, a.content].filter
    (fun p => p != ""))

/-- The chained `if age_days <= …` ladder of `_recency_weight`
(sentiment.py lines 109-119), as a function of the age in days. -/
def decayStep (age_days : ℚ) : ℚ :=
  if age_days ≤ 1 then 1
  else if age_days ≤ 3 then 4/5
  else if age_days ≤ 7 then 3/5
  else if age_days ≤ 14 then 3/10
  else if age_days ≤ 30 then 1/10
  else 0

/-- Embedding of `_recency_weight` (sentiment.py lines 86-119). A missing
or unparsable timestamp (`none`) yields 0.0; otherwise the age in days is
`max(0.0, (now - ts).total_seconds() / 86400.0)` and the weight is the
`decayStep` ladder applied to it. -/
def recency_weight (now : ℚ) (ts : Option ℚ) : ℚ :=
  match ts with
  | none => 0
  | some t => decayStep (max 0 ((now - t) / 86400))

/-- The fixed macro/monetary-policy keyword list `HIGH_IMPACT_KEYWORDS`
(sentiment.py lines 19-41). -/
def HIGH_IMPACT_KEYWORDS : List String :=
  ["powell", "federal reserve", "fed", "rate hike", "rate cut",
   "rate hikes", "rate cuts", "interest rates", "monetary policy", "qe",
   "quantitative easing", "taper", "central bank", "central banks",
   "inflation shock", "stagflation", "recession", "crisis",
   "credit crunch", "de-dollarization", "brics"]

/-- Python's substring test `k in txt`: `k` occurs in `txt` iff splitting
`txt` on `k` yields more than one piece (all keywords are non-empty). -/
def contains_substring (txt k : String) : Bool :=
  (txt.splitOn k).length != 1

/-- The keyword test of `_impact_weight` (sentiment.py lines 135-137):
`any(k in txt for k in HIGH_IMPACT_KEYWORDS)` over the lower-cased text. -/
def has_high_impact (text : String) : Bool :=
  HIGH_IMPACT_KEYWORDS.any (fun k => contains_substring text.toLower k)

/-- Embedding of `_impact_weight` (sentiment.py lines 122-142):
`margin = |positive - negative|`, `base = max(margin, 1e-3)`,
`impact_boost = 3.0` when the lower-cased text contains a high-impact
keyword and `1.0` otherwise, and the result is `base ** 1.5 * boost`. -/
noncomputable def impact_weight (score : SentimentScores) (text : String) : ℝ :=
  let margin := |(score.positive : ℝ) - (score.negative : ℝ)|
  let base := max margin (1/1000)
  let impact_boost : ℝ := if has_high_impact text then 3 else 1
  base ^ ((3 : ℝ) / 2) * impact_boost

/-- Modelled from the spec: the index-to-label classifier of
`compute_index` lives in processing/index_calc.py, which is not among the
sources; spec §4.5 fixes it as a pure total function with lower-inclusive
bands [0,25) ↦ "Extremely Bearish", [25,45) ↦ "Bearish", [45,55) ↦
"Neutral", [55,75) ↦ "Bullish", [75,100] ↦ "Extremely Bullish". -/
def classify {α : Type} [LinearOrderedField α] (nw_norm : α) : String :=
  if nw_norm < 25 then "Extremely Bearish"
  else if nw_norm < 45 then "Bearish"
  else if nw_norm < 55 then "Neutral"
  else if nw_norm < 75 then "Bullish"
  else "Extremely Bullish"

/-- Result record of `compute_index` (spec §3 data model). -/
structure IndexComponents (α : Type) where
  nw : α
  nw_norm : α
  gsi : α
  classification : String

/-- Modelled from the spec: `compute_index` lives in
processing/index_calc.py, which is not among the sources. Spec §4.4: `nw`
is the left-to-right weighted sum of `(positive - negative)`; empty input
or total weight ≈ 0 yields the neutral default `⟨0, 50, 50, "Neutral"⟩`
through an explicit branch; otherwise `nw` is divided by the total weight
and mapped affinely via `50 + 50 * avg`, clamped into [0,100]; `gsi`
equals `nw_norm`; the label comes from the §4.5 classifier. -/
def compute_index {α : Type} [LinearOrderedField α]
    (scores : List SentimentScores) (news_weights : List α) :
    IndexComponents α :=
  let total := news_weights.foldl (· + ·) 0
  if scores.isEmpty ∨ total ≤ 0 then
    ⟨0, 50, 50, "Neutral"⟩
  else
    let nw := (scores.zip news_weights).foldl
      (fun acc p => acc + p.2 * ((p.1.positive : α) - (p.1.negative : α))) 0
    let avg := nw / total
    let nw_norm := min 100 (max 0 (50 + 50 * avg))
    ⟨nw, nw_norm, nw_norm, classify nw_norm⟩

/-- Embedding of `classifyGsi` (dashboard.py lines 157-163), the
JavaScript fallback classifier of the rendered dashboard. -/
def classifyGsi (gsi : ℚ) : String :=
  if gsi < 25 then "Extremely Bearish"
  else if gsi < 45 then "Bearish"
  else if gsi < 55 then "Neutral"
  else if gsi < 75 then "Bullish"
  else "Extremely Bullish"

/-- The band legend rendered by `generate_dashboard` (dashboard.py lines
71-77): label, lower bound, upper bound of each of the five spans of the
`bands` div, in document order. -/
def dashboard_band_legend : List (String × ℚ × ℚ) :=
  [("Extreme Bearish", 0, 25),
   ("Bearish", 25, 45),
   ("Neutral", 45, 55),
   ("Bullish", 55, 75),
   ("Extreme Bullish", 75, 100)]

/-- Python's blankness test `not text.strip()` (sentiment.py line 163):
after stripping leading and trailing whitespace nothing remains, i.e. the
text consists of whitespace only. Stated over the character list so that
it evaluates structurally. -/
def is_blank (s : String) : Bool :=
  s.data.all Char.isWhitespace

/-- The three parallel lists built by the filtering loop of
`analyze_documents` (sentiment.py lines 155-167). -/
structure AnalysisLists where
  news_items : List RawArticle
  recency_weights : List ℚ
  texts : List String
deriving DecidableEq

/-- Embedding of the filtering loop of `analyze_documents` (sentiment.py
lines 155-167): skip a record when its recency weight is `<= 0`, skip it
when its extracted text is blank after `strip()`, and otherwise append the
record, its recency weight and its text to the three parallel lists. -/
def collect (now : ℚ) : List RawArticle → AnalysisLists
  | [] => ⟨[], [], []⟩
  | n :: rest =>
    if recency_weight now n.timestamp ≤ 0 then collect now rest
    else if is_blank (extract_news_text n) then collect now rest
    else
      ⟨n :: (collect now rest).news_items,
       recency_weight now n.timestamp :: (collect now rest).recency_weights,
       extract_news_text n :: (collect now rest).texts⟩

/-- Embedding of `news_scores = analyze_batch(texts) if texts else []`
(sentiment.py line 169). -/
def news_scores (now : ℚ) (docs : List RawArticle)
    (batch : List String → List SentimentScores) : List SentimentScores :=
  let texts := (collect now docs).texts
  if texts.isEmpty then [] else batch texts

/-- The list of argument lists the external classifier is invoked with in
one run: `analyze_batch(texts) if texts else []` performs no call when
`texts` is empty and exactly one call, on `texts`, otherwise. -/
def classifier_calls (texts : List String) : List (List String) :=
  if texts.isEmpty then [] else [texts]

/-- Embedding of the effective-weight loop of `analyze_documents`
(sentiment.py lines 173-176): `zip(news_scores, recency_weights, texts)`
truncates to the shortest list and each surviving triple contributes
`recency * impact`. -/
noncomputable def analyze_effective_weights (now : ℚ) (docs : List RawArticle)
    (batch : List String → List SentimentScores) : List ℝ :=
  let s := collect now docs
  List.zipWith3 (fun sc (w : ℚ) text => (w : ℝ) * impact_weight sc text)
    (news_scores now docs batch) s.recency_weights s.texts

/-- The fields of the result record of `analyze_documents` that the claims
mention (sentiment.py lines 197-207). -/
structure AnalysisResult where
  count : ℕ
  nw : ℝ
  nw_norm : ℝ
  gsi : ℝ
  classification : String

/-- Embedding of `analyze_documents` (sentiment.py lines 145-209): filter
the snapshot, score the surviving texts in one batch call, combine recency
and impact weights, and compute the index over (scores, effective
weights). `count` is the length of the zipped `news_docs` list. -/
noncomputable def analyze_documents (now : ℚ) (docs : List RawArticle)
    (batch : List String → List SentimentScores) : AnalysisResult :=
  let st := collect now docs
  let scores := news_scores now docs batch
  let eff := analyze_effective_weights now docs batch
  let news_docs := st.news_items.zip scores
  let comps := compute_index scores eff
  ⟨news_docs.length, comps.nw, comps.nw_norm, comps.gsi, comps.classification⟩

/-! Helper lemmas about the decay ladder and the filtering loop. -/

theorem decayStep_le_one (a : ℚ) : decayStep a ≤ 1 := by
  unfold decayStep
  split_ifs <;> norm_num

theorem decayStep_antitone {a b : ℚ} (h : a ≤ b) : decayStep b ≤ decayStep a := by
  unfold decayStep
  split_ifs <;> linarith

theorem decayStep_mem_values (a : ℚ) :
    decayStep a ∈ ({1, 4/5, 3/5, 3/10, 1/10, 0} : Set ℚ) := by
  unfold decayStep
  split_ifs <;> simp

theorem recency_weight_le_one (now : ℚ) (ts : Option ℚ) :
    recency_weight now ts ≤ 1 := by
  cases ts with
  | none => norm_num [recency_weight]
  | some t => exact decayStep_le_one _

theorem collect_nil (now : ℚ) : collect now [] = ⟨[], [], []⟩ := rfl

theorem collect_cons_stale {now : ℚ} {n : RawArticle} (rest : List RawArticle)
    (h : recency_weight now n.timestamp ≤ 0) :
    collect now (n :: rest) = collect now rest := by
  simp [collect, h]

theorem collect_cons_blank {now : ℚ} {n : RawArticle} (rest : List RawArticle)
    (h1 : ¬ recency_weight now n.timestamp ≤ 0)
    (h2 : is_blank (extract_news_text n) = true) :
    collect now (n :: rest) = collect now rest := by
  simp [collect, h1, h2]

theorem collect_cons_keep {now : ℚ} {n : RawArticle} (rest : List RawArticle)
    (h1 : ¬ recency_weight now n.timestamp ≤ 0)
    (h2 : ¬ is_blank (extract_news_text n) = true) :
    collect now (n :: rest) =
      ⟨n :: (collect now rest).news_items,
       recency_weight now n.timestamp :: (collect now rest).recency_weights,
       extract_news_text n :: (collect now rest).texts⟩ := by
  simp [collect, h1, h2]

theorem collect_mem_items (now : ℚ) (docs : List RawArticle) :
    ∀ a ∈ (collect now docs).news_items,
      a ∈ docs ∧ 0 < recency_weight now a.timestamp ∧
        ¬ is_blank (extract_news_text a) = true := by
  induction docs with
  | nil => intro a ha; simp [collect_nil] at ha
  | cons n rest ih =>
    intro a ha
    by_cases h1 : recency_weight now n.timestamp ≤ 0
    · rw [collect_cons_stale rest h1] at ha
      obtain ⟨hmem, hrest⟩ := ih a ha
      exact ⟨List.mem_cons_of_mem _ hmem, hrest⟩
    · by_cases h2 : is_blank (extract_news_text n) = true
      · rw [collect_cons_blank rest h1 h2] at ha
        obtain ⟨hmem, hrest⟩ := ih a ha
        exact ⟨List.mem_cons_of_mem _ hmem, hrest⟩
      · rw [collect_cons_keep rest h1 h2] at ha
        rcases List.mem_cons.1 ha with rfl | ha2
        · exact ⟨List.mem_cons_self _ _, not_le.1 h1, h2⟩
        · obtain ⟨hmem, hrest⟩ := ih a ha2
          exact ⟨List.mem_cons_of_mem _ hmem, hrest⟩

theorem collect_mem_weights (now : ℚ) (docs : List RawArticle) :
    ∀ w ∈ (collect now docs).recency_weights, 0 < w ∧ w ≤ 1 := by
  induction docs with
  | nil => intro w hw; simp [collect_nil] at hw
  | cons n rest ih =>
    intro w hw
    by_cases h1 : recency_weight now n.timestamp ≤ 0
    · rw [collect_cons_stale rest h1] at hw; exact ih w hw
    · by_cases h2 : is_blank (extract_news_text n) = true
      · rw [collect_cons_blank rest h1 h2] at hw; exact ih w hw
      · rw [collect_cons_keep rest h1 h2] at hw
        rcases List.mem_cons.1 hw with rfl | hw2
        · exact ⟨not_le.1 h1, recency_weight_le_one now n.timestamp⟩
        · exact ih w hw2

theorem collect_mem_texts (now : ℚ) (docs : List RawArticle) :
    ∀ t ∈ (collect now docs).texts, ¬ is_blank t = true := by
  induction docs with
  | nil => intro t ht; simp [collect_nil] at ht
  | cons n rest ih =>
    intro t ht
    by_cases h1 : recency_weight now n.timestamp ≤ 0
    · rw [collect_cons_stale rest h1] at ht; exact ih t ht
    · by_cases h2 : is_blank (extract_news_text n) = true
      · rw [collect_cons_blank rest h1 h2] at ht; exact ih t ht
      · rw [collect_cons_keep rest h1 h2] at ht
        rcases List.mem_cons.1 ht with rfl | ht2
        · exact h2
        · exact ih t ht2

theorem collect_lengths (now : ℚ) (docs : List RawArticle) :
    (collect now docs).news_items.length
        = (collect now docs).recency_weights.length ∧
    (collect now docs).recency_weights.length
        = (collect now docs).texts.length := by
  induction docs with
  | nil => simp [collect_nil]
  | cons n rest ih =>
    by_cases h1 : recency_weight now n.timestamp ≤ 0
    · rw [collect_cons_stale rest h1]; exact ih
    · by_cases h2 : is_blank (extract_news_text n) = true
      · rw [collect_cons_blank rest h1 h2]; exact ih
      · rw [collect_cons_keep rest h1 h2]
        exact ⟨by simp [ih.1], by simp [ih.2]⟩

/-- C1: the classification function is total over [0,100] and maps
`nw_norm` to the five labels by lower-inclusive bands [0,25) ↦ "Extremely
Bearish", [25,45) ↦ "Bearish", [45,55) ↦ "Neutral", [55,75) ↦ "Bullish",
[75,100] ↦ "Extremely Bullish"; the boundary values 25, 45, 55, 75 map to
"Bearish", "Neutral", "Bullish", "Extremely Bullish" and 100 maps to
"Extremely Bullish". -/
theorem C1_classifyGsi_bands (x : ℚ) (h0 : 0 ≤ x) (h100 : x ≤ 100) :
    (x < 25 → classifyGsi x = "Extremely Bearish") ∧
    (25 ≤ x → x < 45 → classifyGsi x = "Bearish") ∧
    (45 ≤ x → x < 55 → classifyGsi x = "Neutral") ∧
    (55 ≤ x → x < 75 → classifyGsi x = "Bullish") ∧
    (75 ≤ x → classifyGsi x = "Extremely Bullish") ∧
    classifyGsi 25 = "Bearish" ∧ classifyGsi 45 = "Neutral" ∧
    classifyGsi 55 = "Bullish" ∧ classifyGsi 75 = "Extremely Bullish" ∧
    classifyGsi 100 = "Extremely Bullish" := by
  unfold classifyGsi
  refine ⟨fun h => if_pos h, fun h1 h2 => ?_, fun h1 h2 => ?_,
    fun h1 h2 => ?_, fun h1 => ?_, by norm_num, by norm_num, by norm_num,
    by norm_num, by norm_num⟩
  · rw [if_neg (not_lt.2 h1), if_pos h2]
  · rw [if_neg (not_lt.2 (by linarith)), if_neg (not_lt.2 h1), if_pos h2]
  · rw [if_neg (not_lt.2 (by linarith)), if_neg (not_lt.2 (by linarith)),
      if_neg (not_lt.2 h1), if_pos h2]
  · rw [if_neg (not_lt.2 (by linarith)), if_neg (not_lt.2 (by linarith)),
      if_neg (not_lt.2 (by linarith)), if_neg (not_lt.2 h1)]

/-- Witness for C1 at the concrete input 30. -/
theorem C1_witness : classifyGsi 30 = "Bearish" :=
  (C1_classifyGsi_bands 30 (by norm_num) (by norm_num)).2.1 (by norm_num)
    (by norm_num)

/-- C3: `_recency_weight` returns 0.0 on a missing or unparsable
timestamp; otherwise it is the decay ladder applied to the age
now-minus-timestamp in days floored at 0, so a future timestamp gets full
freshness 1.0, every age of at most 1 day gets 1.0, every age strictly
above 30 days gets 0.0, and the ladder is a non-increasing step function
taking only the values 1.0, 0.8, 0.6, 0.3, 0.1, 0.0. -/
theorem C3_recency_weight_shape (now : ℚ) :
    recency_weight now none = 0 ∧
    (∀ t : ℚ, recency_weight now (some t)
        = decayStep (max 0 ((now - t) / 86400))) ∧
    (∀ t : ℚ, now ≤ t → recency_weight now (some t) = 1) ∧
    (∀ t : ℚ, (now - t) / 86400 ≤ 1 → recency_weight now (some t) = 1) ∧
    (∀ t : ℚ, 30 < (now - t) / 86400 → recency_weight now (some t) = 0) ∧
    (∀ a b : ℚ, a ≤ b → decayStep b ≤ decayStep a) ∧
    (∀ a : ℚ, decayStep a ∈ ({1, 4/5, 3/5, 3/10, 1/10, 0} : Set ℚ)) := by
  refine ⟨rfl, fun t => rfl, fun t ht => ?_, fun t ht => ?_, fun t ht => ?_,
    fun a b h => decayStep_antitone h, fun a => decayStep_mem_values a⟩
  · show decayStep (max 0 ((now - t) / 86400)) = 1
    have h1 : (now - t) / 86400 ≤ 0 := by
      apply div_nonpos_of_nonpos_of_nonneg <;> linarith
    rw [max_eq_left h1]
    norm_num [decayStep]
  · show decayStep (max 0 ((now - t) / 86400)) = 1
    unfold decayStep
    rw [if_pos (max_le (by norm_num) ht)]
  · show decayStep (max 0 ((now - t) / 86400)) = 0
    have hmax : max 0 ((now - t) / 86400) = (now - t) / 86400 :=
      max_eq_right (by linarith)
    unfold decayStep
    rw [hmax]
    split_ifs <;> first | rfl | linarith

/-- Witness for C3 at concrete inputs: a timestamp equal to now is fully
fresh, and the missing timestamp gets weight 0. -/
theorem C3_witness : recency_weight 0 (some 0) = 1 ∧ recency_weight 0 none = 0 :=
  ⟨(C3_recency_weight_shape 0).2.2.1 0 le_rfl, (C3_recency_weight_shape 0).1⟩

/-- Counterexample for C9: at an age of exactly 1 day the code returns
weight 1.0, not the 0.8 the lower-inclusive reading demands, because the
ladder tests `age_days <= 1` first. -/
theorem C9_counterexample :
    recency_weight 86400 (some 0) = 1 ∧ (1 : ℚ) ≠ 4/5 := by
  constructor
  · show decayStep (max 0 ((86400 - 0) / 86400)) = 1
    norm_num [decayStep]
  · norm_num

/-- C9 as amended: the decay intervals are half-open with the LARGER bound
inclusive, so an age of exactly 1, 3, 7, 14 or 30 days still belongs to
the fresher interval and yields 1.0, 0.8, 0.6, 0.3, 0.1 respectively. -/
theorem C9_recency_boundaries (now t : ℚ) :
    (max 0 ((now - t) / 86400) = 1 → recency_weight now (some t) = 1) ∧
    (max 0 ((now - t) / 86400) = 3 → recency_weight now (some t) = 4/5) ∧
    (max 0 ((now - t) / 86400) = 7 → recency_weight now (some t) = 3/5) ∧
    (max 0 ((now - t) / 86400) = 14 → recency_weight now (some t) = 3/10) ∧
    (max 0 ((now - t) / 86400) = 30 → recency_weight now (some t) = 1/10) := by
  refine ⟨fun h => ?_, fun h => ?_, fun h => ?_, fun h => ?_, fun h => ?_⟩ <;>
    · show decayStep (max 0 ((now - t) / 86400)) = _
      rw [h]
      norm_num [decayStep]

/-- Witness for C9's amended claim at the concrete age of exactly 3 days. -/
theorem C9_witness : recency_weight (3 * 86400) (some 0) = 4/5 :=
  (C9_recency_boundaries (3 * 86400) 0).2.1 (by norm_num)

/-! Helper lemmas about the impact weight. -/

theorem impact_weight_eq (s : SentimentScores) (t : String) :
    impact_weight s t =
      (max |(s.positive : ℝ) - (s.negative : ℝ)| (1/1000)) ^ ((3 : ℝ) / 2) *
        (if has_high_impact t then 3 else 1) := rfl

theorem impact_weight_pos (s : SentimentScores) (t : String) :
    0 < impact_weight s t := by
  rw [impact_weight_eq]
  have hb : (0 : ℝ) < max |(s.positive : ℝ) - (s.negative : ℝ)| (1/1000) :=
    lt_of_lt_of_le (by norm_num) (le_max_right _ _)
  have hboost : (0 : ℝ) < if has_high_impact t then 3 else 1 := by
    split_ifs <;> norm_num
  exact mul_pos (Real.rpow_pos_of_pos hb _) hboost

theorem impact_weight_le_three (s : SentimentScores) (t : String)
    (h1 : 0 ≤ s.positive) (h2 : s.positive ≤ 1)
    (h3 : 0 ≤ s.negative) (h4 : s.negative ≤ 1) :
    impact_weight s t ≤ 3 := by
  rw [impact_weight_eq]
  have hp1 : (s.positive : ℝ) ≤ 1 := by exact_mod_cast h2
  have hp0 : (0 : ℝ) ≤ (s.positive : ℝ) := by exact_mod_cast h1
  have hn1 : (s.negative : ℝ) ≤ 1 := by exact_mod_cast h4
  have hn0 : (0 : ℝ) ≤ (s.negative : ℝ) := by exact_mod_cast h3
  have hm : |(s.positive : ℝ) - (s.negative : ℝ)| ≤ 1 := by
    rw [abs_le]
    constructor <;> linarith
  have hbase0 : (0 : ℝ) ≤ max |(s.positive : ℝ) - (s.negative : ℝ)| (1/1000) :=
    le_trans (by norm_num) (le_max_right _ _)
  have hbase1 : max |(s.positive : ℝ) - (s.negative : ℝ)| (1/1000) ≤ 1 :=
    max_le hm (by norm_num)
  have hpow : (max |(s.positive : ℝ) - (s.negative : ℝ)| (1/1000))
      ^ ((3 : ℝ) / 2) ≤ 1 := Real.rpow_le_one hbase0 hbase1 (by norm_num)
  have hpow0 : (0 : ℝ) ≤ (max |(s.positive : ℝ) - (s.negative : ℝ)| (1/1000))
      ^ ((3 : ℝ) / 2) := Real.rpow_nonneg hbase0 _
  have hboost : (if has_high_impact t then (3 : ℝ) else 1) ≤ 3 := by
    split_ifs <;> norm_num
  have hboost0 : (0 : ℝ) ≤ if has_high_impact t then (3 : ℝ) else 1 := by
    split_ifs <;> norm_num
  calc (max |(s.positive : ℝ) - (s.negative : ℝ)| (1/1000)) ^ ((3 : ℝ) / 2) *
        (if has_high_impact t then (3 : ℝ) else 1)
      ≤ 1 * 3 := mul_le_mul hpow hboost hboost0 (by norm_num)
    _ = 3 := by norm_num

/-- C4: `_impact_weight` equals `max(|positive - negative|, 0.001) ^ 1.5`
times the boost, where the boost is 3.0 when the lower-cased text contains
a keyword of the fixed macro/monetary-policy list and 1.0 otherwise; the
result is strictly positive, hence never 0 and never negative, even when
positive = negative. -/
theorem C4_impact_weight_formula (s : SentimentScores) (t : String) :
    impact_weight s t =
      (max |(s.positive : ℝ) - (s.negative : ℝ)| (1/1000)) ^ ((3 : ℝ) / 2) *
        (if has_high_impact t then 3 else 1) ∧
    0 < impact_weight s t ∧ impact_weight s t ≠ 0 ∧ ¬ impact_weight s t < 0 :=
  ⟨impact_weight_eq s t, impact_weight_pos s t,
    (impact_weight_pos s t).ne.symm, not_lt.2 (impact_weight_pos s t).le⟩

/-- Bound used by C10: positionwise, every effective weight built from a
score with components in [0,1], a recency weight in (0,1] and a text lies
in (0,3]. -/
theorem effective_weights_bound :
    ∀ (scores : List SentimentScores) (ws : List ℚ) (texts : List String),
      (∀ s ∈ scores, 0 ≤ s.positive ∧ s.positive ≤ 1 ∧
        0 ≤ s.negative ∧ s.negative ≤ 1) →
      (∀ w ∈ ws, 0 < w ∧ w ≤ 1) →
      ∀ x ∈ List.zipWith3
          (fun sc (w : ℚ) text => (w : ℝ) * impact_weight sc text)
          scores ws texts,
        0 < x ∧ x ≤ 3 := by
  intro scores
  induction scores with
  | nil => intro ws texts _ _ x hx; simp [List.zipWith3] at hx
  | cons s srest ih =>
    intro ws texts hs hw x hx
    match ws, texts with
    | [], _ => simp [List.zipWith3] at hx
    | _ :: _, [] => simp [List.zipWith3] at hx
    | w :: wrest, t :: trest =>
      simp only [List.zipWith3] at hx
      rcases List.mem_cons.1 hx with rfl | hx2
      · have hsb := hs s (List.mem_cons_self _ _)
        have hwb := hw w (List.mem_cons_self _ _)
        have hw0 : (0 : ℝ) < (w : ℝ) := by exact_mod_cast hwb.1
        have hw1 : (w : ℝ) ≤ 1 := by exact_mod_cast hwb.2
        have himp0 := impact_weight_pos s t
        have himp3 := impact_weight_le_three s t hsb.1 hsb.2.1 hsb.2.2.1 hsb.2.2.2
        constructor
        · exact mul_pos hw0 himp0
        · calc (w : ℝ) * impact_weight s t ≤ 1 * 3 :=
              mul_le_mul hw1 himp3 himp0.le (by norm_num)
            _ = 3 := by norm_num
      · exact ih wrest trest
          (fun a ha => hs a (List.mem_cons_of_mem _ ha))
          (fun a ha => hw a (List.mem_cons_of_mem _ ha)) x hx2

/-- C10: for scores with positive and negative in [0,1] the impact weight
lies in (0,3]; consequently every effective weight of a run (recency
weight times impact weight, the recency weight being in (0,1] by the
filter) is strictly positive and at most 3. -/
theorem C10_weight_bounds :
    (∀ (s : SentimentScores) (t : String),
      0 ≤ s.positive → s.positive ≤ 1 → 0 ≤ s.negative → s.negative ≤ 1 →
      0 < impact_weight s t ∧ impact_weight s t ≤ 3) ∧
    (∀ (now : ℚ) (docs : List RawArticle)
        (batch : List String → List SentimentScores),
      (∀ s ∈ news_scores now docs batch, 0 ≤ s.positive ∧ s.positive ≤ 1 ∧
        0 ≤ s.negative ∧ s.negative ≤ 1) →
      ∀ x ∈ analyze_effective_weights now docs batch, 0 < x ∧ x ≤ 3) := by
  constructor
  · intro s t h1 h2 h3 h4
    exact ⟨impact_weight_pos s t, impact_weight_le_three s t h1 h2 h3 h4⟩
  · intro now docs batch hs x hx
    exact effective_weights_bound (news_scores now docs batch)
      (collect now docs).recency_weights (collect now docs).texts hs
      (collect_mem_weights now docs) x hx

/-- Witness for C10 at a concrete decisive score and text. -/
theorem C10_witness :
    0 < impact_weight ⟨1, 0, 0⟩ "gold" ∧ impact_weight ⟨1, 0, 0⟩ "gold" ≤ 3 :=
  C10_weight_bounds.1 ⟨1, 0, 0⟩ "gold" (by norm_num) (by norm_num)
    (by norm_num) (by norm_num)

/-! Helper lemmas about list lengths in the scoring pipeline. -/

theorem length_zipWith3 {α β γ δ : Type} (f : α → β → γ → δ) :
    ∀ (as : List α) (bs : List β) (cs : List γ),
      (List.zipWith3 f as bs cs).length
        = min as.length (min bs.length cs.length)
  | [], _, _ => by simp [List.zipWith3]
  | _ :: _, [], _ => by simp [List.zipWith3]
  | _ :: _, _ :: _, [] => by simp [List.zipWith3]
  | a :: as, b :: bs, c :: cs => by
    simp only [List.zipWith3, List.length_cons, length_zipWith3 f as bs cs]
    omega

theorem news_scores_length (now : ℚ) (docs : List RawArticle)
    (batch : List String → List SentimentScores)
    (hbatch : ∀ ts, (batch ts).length = ts.length) :
    (news_scores now docs batch).length = (collect now docs).texts.length := by
  unfold news_scores
  by_cases h : (collect now docs).texts.isEmpty
  · rw [if_pos h, List.isEmpty_iff.1 h]
    rfl
  · rw [if_neg h]
    exact hbatch _

theorem analyze_effective_weights_length (now : ℚ) (docs : List RawArticle)
    (batch : List String → List SentimentScores)
    (hbatch : ∀ ts, (batch ts).length = ts.length) :
    (analyze_effective_weights now docs batch).length
      = (collect now docs).texts.length := by
  unfold analyze_effective_weights
  rw [length_zipWith3, news_scores_length now docs batch hbatch,
    (collect_lengths now docs).2]
  omega

/-- C5: every record whose recency weight is not strictly positive, or
whose extracted text is empty, is excluded before scoring; the external
classifier is invoked at most once per run, only on the filtered list of
non-blank texts, and not at all when that list is empty. -/
theorem C5_filter_and_single_call (now : ℚ) (docs : List RawArticle) :
    (∀ a ∈ docs, ¬ 0 < recency_weight now a.timestamp →
      a ∉ (collect now docs).news_items) ∧
    (∀ a ∈ docs, extract_news_text a = "" →
      a ∉ (collect now docs).news_items) ∧
    (classifier_calls (collect now docs).texts).length ≤ 1 ∧
    (∀ c ∈ classifier_calls (collect now docs).texts,
      c = (collect now docs).texts) ∧
    ((collect now docs).texts = [] →
      classifier_calls (collect now docs).texts = []) ∧
    (∀ t ∈ (collect now docs).texts, ¬ is_blank t = true) := by
  refine ⟨fun a _ hw hmem => ?_, fun a _ htext hmem => ?_, ?_, ?_, ?_,
    collect_mem_texts now docs⟩
  · exact hw (collect_mem_items now docs a hmem).2.1
  · exact (collect_mem_items now docs a hmem).2.2 (by rw [htext]; decide)
  · unfold classifier_calls
    split_ifs <;> simp
  · intro c hc
    unfold classifier_calls at hc
    split_ifs at hc with h
    · simp at hc
    · rcases List.mem_singleton.1 hc with rfl
      rfl
  · intro h
    unfold classifier_calls
    rw [if_pos (by rw [h]; rfl)]

/-- Witness for C5: a record with a missing timestamp is excluded from the
surviving items, and the empty snapshot triggers no classifier call. -/
theorem C5_witness :
    (⟨"u", none, "gold", "", ""⟩ : RawArticle)
        ∉ (collect 0 [⟨"u", none, "gold", "", ""⟩]).news_items ∧
    classifier_calls (collect 0 ([] : List RawArticle)).texts = [] :=
  ⟨(C5_filter_and_single_call 0 [⟨"u", none, "gold", "", ""⟩]).1 _
      (List.mem_singleton.2 rfl) (by norm_num [recency_weight]),
    (C5_filter_and_single_call 0 []).2.2.2.2.1 rfl⟩

/-- Counterexample for C7: the code does not fail when the external
classifier returns the wrong number of scores. With one fresh, non-blank
document and a classifier returning an empty list, `zip` silently
truncates, `compute_index` receives no scores, and a (neutral) index IS
emitted although the classifier did not return one score for the one
input text. -/
theorem C7_counterexample :
    (analyze_documents 0 [⟨"u", some 0, "gold", "", ""⟩]
        (fun _ => [])).classification = "Neutral" ∧
    (collect 0 [⟨"u", some 0, "gold", "", ""⟩]).texts.length = 1 ∧
    (news_scores 0 [⟨"u", some 0, "gold", "", ""⟩] (fun _ => [])).length
        = 0 := by
  have h0 : recency_weight 0 (some (0 : ℚ)) = 1 := by
    show decayStep (max 0 ((0 - 0) / 86400)) = 1
    norm_num [decayStep]
  have h1 : ¬ recency_weight 0 (some (0 : ℚ)) ≤ 0 := by rw [h0]; norm_num
  have h2 : ¬ is_blank
      (extract_news_text ⟨"u", some 0, "gold", "", ""⟩) = true := by decide
  have hc : collect 0 [⟨"u", some 0, "gold", "", ""⟩]
      = ⟨[⟨"u", some 0, "gold", "", ""⟩], [recency_weight 0 (some 0)],
         [extract_news_text ⟨"u", some 0, "gold", "", ""⟩]⟩ := by
    rw [collect_cons_keep [] h1 h2, collect_nil]
  have hs : news_scores 0 [⟨"u", some 0, "gold", "", ""⟩] (fun _ => [])
      = [] := by
    unfold news_scores
    exact ite_self []
  refine ⟨?_, ?_, ?_⟩
  · show (compute_index
        (news_scores 0 [⟨"u", some 0, "gold", "", ""⟩] (fun _ => []))
        (analyze_effective_weights 0 [⟨"u", some 0, "gold", "", ""⟩]
          (fun _ => []))).classification = "Neutral"
    rw [hs]
    rfl
  · rw [hc]
    rfl
  · rw [hs]
    rfl

/-- C7 as amended: the aggregation core itself never checks the classifier
output length; `zip` truncates a mismatched return. When the classifier
honors its contract of one score per text, the scores and weights passed
to `compute_index` have equal length and cover exactly the filtered
documents. -/
theorem C7_length_contract (now : ℚ) (docs : List RawArticle)
    (batch : List String → List SentimentScores)
    (hbatch : ∀ ts, (batch ts).length = ts.length) :
    (news_scores now docs batch).length
        = (analyze_effective_weights now docs batch).length ∧
    (news_scores now docs batch).length = (collect now docs).texts.length ∧
    (collect now docs).news_items.length = (collect now docs).texts.length := by
  have h1 := news_scores_length now docs batch hbatch
  have h2 := analyze_effective_weights_length now docs batch hbatch
  have h3 := collect_lengths now docs
  exact ⟨by rw [h1, h2], h1, by rw [h3.1, h3.2]⟩

/-- Witness for C7's amended claim with a length-preserving classifier. -/
theorem C7_witness :
    (news_scores 0 [] (fun ts => ts.map (fun _ => ⟨1, 0, 0⟩))).length
        = (analyze_effective_weights 0 []
            (fun ts => ts.map (fun _ => ⟨1, 0, 0⟩))).length :=
  (C7_length_contract 0 [] _ (fun ts => by simp)).1

/-- Counterexample for C8: the code performs no deduplication by id. A
snapshot holding the same record (same url) twice keeps both occurrences:
the id "u" occurs twice among the weighted items and two effective
weights are produced, so the document identified by "u" is weighted
twice, not at most once. -/
theorem C8_counterexample :
    (((collect 0 [⟨"u", some 0, "gold", "", ""⟩,
          ⟨"u", some 0, "gold", "", ""⟩]).news_items).map
        RawArticle.url).count "u" = 2 ∧
    (analyze_effective_weights 0 [⟨"u", some 0, "gold", "", ""⟩,
        ⟨"u", some 0, "gold", "", ""⟩]
      (fun ts => ts.map (fun _ => ⟨1, 0, 0⟩))).length = 2 := by
  have h0 : recency_weight 0 (some (0 : ℚ)) = 1 := by
    show decayStep (max 0 ((0 - 0) / 86400)) = 1
    norm_num [decayStep]
  have h1 : ¬ recency_weight 0 (some (0 : ℚ)) ≤ 0 := by rw [h0]; norm_num
  have h2 : ¬ is_blank
      (extract_news_text ⟨"u", some 0, "gold", "", ""⟩) = true := by decide
  have hc : collect 0 [⟨"u", some 0, "gold", "", ""⟩,
        ⟨"u", some 0, "gold", "", ""⟩]
      = ⟨[⟨"u", some 0, "gold", "", ""⟩, ⟨"u", some 0, "gold", "", ""⟩],
         [recency_weight 0 (some 0), recency_weight 0 (some 0)],
         [extract_news_text ⟨"u", some 0, "gold", "", ""⟩,
          extract_news_text ⟨"u", some 0, "gold", "", ""⟩]⟩ := by
    rw [collect_cons_keep [⟨"u", some 0, "gold", "", ""⟩] h1 h2,
      collect_cons_keep [] h1 h2, collect_nil]
  have hs : news_scores 0 [⟨"u", some 0, "gold", "", ""⟩,
        ⟨"u", some 0, "gold", "", ""⟩]
        (fun ts => ts.map (fun _ => ⟨1, 0, 0⟩))
      = [⟨1, 0, 0⟩, ⟨1, 0, 0⟩] := by
    unfold news_scores
    rw [hc]
    rfl
  constructor
  · rw [hc]
    rfl
  · unfold analyze_effective_weights
    rw [hs, hc]
    rfl

/-- C8 as amended: each SURVIVING OCCURRENCE of a record is weighted
exactly once — the weighted (item, weight) pairs are in one-to-one
positional correspondence with the surviving items, so an id is weighted
exactly as often as it occurs among the surviving records; duplicates are
not collapsed. -/
theorem C8_weighted_multiplicity (now : ℚ) (docs : List RawArticle)
    (batch : List String → List SentimentScores)
    (hbatch : ∀ ts, (batch ts).length = ts.length) (id : String) :
    ((((collect now docs).news_items).zip
        (analyze_effective_weights now docs batch)).map
      (fun p => p.1.url)).count id
      = (((collect now docs).news_items).map RawArticle.url).count id := by
  have hlen : (collect now docs).news_items.length
      ≤ (analyze_effective_weights now docs batch).length := by
    rw [analyze_effective_weights_length now docs batch hbatch,
      (collect_lengths now docs).1, (collect_lengths now docs).2]
  have h1 : List.map Prod.fst
      (((collect now docs).news_items).zip
        (analyze_effective_weights now docs batch))
      = (collect now docs).news_items :=
    List.map_fst_zip _ _ hlen
  calc ((((collect now docs).news_items).zip
        (analyze_effective_weights now docs batch)).map
      (fun p => p.1.url)).count id
      = ((List.map Prod.fst (((collect now docs).news_items).zip
          (analyze_effective_weights now docs batch))).map
        RawArticle.url).count id := by rw [List.map_map]; rfl
    _ = (((collect now docs).news_items).map RawArticle.url).count id := by
        rw [h1]

/-- Witness for C8's amended claim at a duplicated concrete snapshot. -/
theorem C8_witness :
    ((((collect 0 [⟨"u", some 0, "gold", "", ""⟩,
          ⟨"u", some 0, "gold", "", ""⟩]).news_items).zip
        (analyze_effective_weights 0 [⟨"u", some 0, "gold", "", ""⟩,
            ⟨"u", some 0, "gold", "", ""⟩]
          (fun ts => ts.map (fun _ => ⟨1, 0, 0⟩)))).map
      (fun p => p.1.url)).count "u"
      = (((collect 0 [⟨"u", some 0, "gold", "", ""⟩,
          ⟨"u", some 0, "gold", "", ""⟩]).news_items).map
        RawArticle.url).count "u" :=
  C8_weighted_multiplicity 0 _ _ (fun ts => by simp) "u"

/-- C2: `compute_index` on empty input, or whenever the weights total at
most zero, returns the neutral default `nw = 0`, `nw_norm = 50`,
`gsi = 50`, classification "Neutral", through the explicit guard branch. -/
theorem C2_compute_index_neutral :
    compute_index ([] : List SentimentScores) ([] : List ℚ)
        = ⟨0, 50, 50, "Neutral"⟩ ∧
    ∀ (scores : List SentimentScores) (weights : List ℚ),
      weights.foldl (· + ·) 0 ≤ 0 →
      compute_index scores weights = ⟨0, 50, 50, "Neutral"⟩ := by
  constructor
  · rfl
  · intro scores weights h
    simp only [compute_index]
    split_ifs with hc
    · rfl
    · exact absurd (Or.inr h) hc

/-- Witness for C2 with a non-empty score list whose weights total zero. -/
theorem C2_witness :
    compute_index [⟨1, 0, 0⟩] ([0] : List ℚ) = ⟨0, 50, 50, "Neutral"⟩ :=
  C2_compute_index_neutral.2 [⟨1, 0, 0⟩] [0] (by norm_num)

/-- C6 (code bug): the dashboard's `classifyGsi` fallback agrees with the
spec §4.5 classifier boundary-for-boundary and label-for-label, and the
legend's numeric boundaries agree too, but the legend's outer labels read
"Extreme Bearish" and "Extreme Bullish" instead of the contract's
"Extremely Bearish" and "Extremely Bullish". -/
theorem C6_legend_label_mismatch :
    dashboard_band_legend.map (fun b => b.1)
        = ["Extreme Bearish", "Bearish", "Neutral", "Bullish",
           "Extreme Bullish"] ∧
    dashboard_band_legend.map (fun b => b.2)
        = [(0, 25), (25, 45), (45, 55), (55, 75), (75, 100)] ∧
    (∀ x : ℚ, classifyGsi x = classify x) ∧
    classifyGsi 0 = "Extremely Bearish" ∧
    ("Extreme Bearish" : String) ≠ "Extremely Bearish" ∧
    classifyGsi 100 = "Extremely Bullish" ∧
    ("Extreme Bullish" : String) ≠ "Extremely Bullish" := by
  refine ⟨rfl, rfl, fun x => ?_, by norm_num [classifyGsi],
    by decide, by norm_num [classifyGsi], by decide⟩
  unfold classifyGsi classify
  split_ifs <;> rfl
